import Mathlib

/-!
Verification of `resource_management/libraries/script/script.py` (the `Script`
class: structured-output reporting, the `execute` envelope, and the
`install_packages` package-installation orchestrator).

The Python code is shallowly embedded: JSON documents become the inductive
type `JValue`; Python's `json.loads` / `json.dumps` become the executable
functions `jsonLoads` / `jsonDumps` (number literals restricted to integers —
no claim exercises floating-point JSON); Python dictionaries become
insertion-ordered association lists with `dict.update` semantics; exceptions
become an explicit `PyErr` error component; file and subprocess side effects
become event traces.
-/

namespace Script2Proof

/-- A JSON value, as produced by Python's `json` module (numbers restricted
to integers; no claim involves floating-point literals). -/
inductive JValue where
  | null : JValue
  | bool (b : Bool) : JValue
  | num (n : Int) : JValue
  | str (s : String) : JValue
  | arr (elems : List JValue) : JValue
  | obj (members : List (String × JValue)) : JValue

/-- Python exception kinds that the embedded code can raise or catch. -/
inductive PyErr where
  | ioError : PyErr
  | valueError : PyErr
  | keyError : PyErr
  | typeError : PyErr
  | fail (msg : String) : PyErr
deriving DecidableEq, Repr

/-! ## json.loads: a JSON reader

An executable recursive-descent reader over the character list, with a fuel
argument bounding nesting depth (fuel `length + 1` always suffices because
every nested `jsonVal` call consumes at least the opening bracket first). -/

/-- Skip JSON whitespace. -/
def skipWs : List Char → List Char
  | c :: cs => if c = ' ' ∨ c = '\t' ∨ c = '\n' ∨ c = '\r' then skipWs cs else c :: cs
  | [] => []

/-- Decode a JSON string escape character (`\uXXXX` escapes are not modelled;
no claim exercises them). -/
def escChar (c : Char) : Option Char :=
  if c = '"' then some '"'
  else if c = '\\' then some '\\'
  else if c = '/' then some '/'
  else if c = 'n' then some '\n'
  else if c = 't' then some '\t'
  else if c = 'r' then some '\r'
  else none

/-- Read the body of a JSON string literal after the opening quote, up to and
including the closing quote. -/
def jsonStringBody : List Char → Option (List Char × List Char)
  | [] => none
  | c :: cs =>
    if c = '"' then some ([], cs)
    else if c = '\\' then
      match cs with
      | [] => none
      | e :: cs2 =>
        match escChar e with
        | none => none
        | some d =>
          match jsonStringBody cs2 with
          | none => none
          | some (body, rest) => some (d :: body, rest)
    else
      match jsonStringBody cs with
      | none => none
      | some (body, rest) => some (c :: body, rest)

/-- Accumulate a run of decimal digits. -/
def jsonDigitsAux : Nat → List Char → Nat × List Char
  | acc, c :: cs =>
    if c.isDigit then jsonDigitsAux (acc * 10 + (c.toNat - '0'.toNat)) cs
    else (acc, c :: cs)
  | acc, [] => (acc, [])

/-- Read a run of decimal digits as a natural number (`none` if no digit). -/
def jsonDigits : List Char → Option (Nat × List Char)
  | c :: cs =>
    if c.isDigit then some (jsonDigitsAux (c.toNat - '0'.toNat) cs) else none
  | [] => none

/-- Read a JSON number (integer form only: an optional minus sign and digits;
a following `.`, `e` or `E` is rejected rather than read as a float). -/
def jsonNumber : List Char → Option (JValue × List Char)
  | cs =>
    let (neg, cs1) :=
      match cs with
      | c :: rest => if c = '-' then (true, rest) else (false, cs)
      | [] => (false, cs)
    match jsonDigits cs1 with
    | none => none
    | some (n, rest) =>
      match rest with
      | c :: _ => if c = '.' ∨ c = 'e' ∨ c = 'E' then none
                  else some (.num (if neg then -(n : Int) else (n : Int)), rest)
      | [] => some (.num (if neg then -(n : Int) else (n : Int)), rest)

/-- Check that `pre` is a leading segment of `cs` and return the remainder. -/
def dropLit : List Char → List Char → Option (List Char)
  | [], cs => some cs
  | p :: ps, c :: cs => if p = c then dropLit ps cs else none
  | _ :: _, [] => none

mutual

/-- Read one JSON value (recursive descent; `fuel` bounds nesting depth). -/
def jsonVal : Nat → List Char → Option (JValue × List Char)
  | 0, _ => none
  | fuel + 1, cs =>
    match skipWs cs with
    | [] => none
    | c :: cs1 =>
      if c = '{' then
        match skipWs cs1 with
        | d :: cs2 => if d = '}' then some (.obj [], cs2) else jsonMembers fuel (d :: cs2)
        | [] => none
      else if c = '[' then
        match skipWs cs1 with
        | d :: cs2 => if d = ']' then some (.arr [], cs2) else jsonElems fuel (d :: cs2)
        | [] => none
      else if c = '"' then
        match jsonStringBody cs1 with
        | some (body, rest) => some (.str (String.mk body), rest)
        | none => none
      else
        match dropLit "true".data (c :: cs1) with
        | some rest => some (.bool true, rest)
        | none =>
          match dropLit "false".data (c :: cs1) with
          | some rest => some (.bool false, rest)
          | none =>
            match dropLit "null".data (c :: cs1) with
            | some rest => some (.null, rest)
            | none => jsonNumber (c :: cs1)

/-- Read object members `"k": v (, "k": v)* }` after the opening brace. -/
def jsonMembers : Nat → List Char → Option (JValue × List Char)
  | 0, _ => none
  | fuel + 1, cs =>
    match skipWs cs with
    | c :: cs1 =>
      if c = '"' then
        match jsonStringBody cs1 with
        | some (key, cs2) =>
          match skipWs cs2 with
          | d :: cs3 =>
            if d = ':' then
              match jsonVal fuel cs3 with
              | some (v, cs4) =>
                match skipWs cs4 with
                | e :: cs5 =>
                  if e = ',' then
                    match jsonMembers fuel cs5 with
                    | some (.obj ms, rest) => some (.obj ((String.mk key, v) :: ms), rest)
                    | _ => none
                  else if e = '}' then some (.obj [(String.mk key, v)], cs5)
                  else none
                | [] => none
              | none => none
            else none
          | [] => none
        | none => none
      else none
    | [] => none

/-- Read array elements `v (, v)* ]` after the opening bracket. -/
def jsonElems : Nat → List Char → Option (JValue × List Char)
  | 0, _ => none
  | fuel + 1, cs =>
    match jsonVal fuel cs with
    | some (v, cs1) =>
      match skipWs cs1 with
      | e :: cs2 =>
        if e = ',' then
          match jsonElems fuel cs2 with
          | some (.arr vs, rest) => some (.arr (v :: vs), rest)
          | _ => none
        else if e = ']' then some (.arr [v], cs2)
        else none
      | [] => none
    | none => none

end

/-- Python `json.loads`: read a single JSON document from a string, requiring
the whole input to be consumed; `none` models a raised `ValueError`. -/
def jsonLoads (s : String) : Option JValue :=
  match jsonVal (s.length + 1) s.data with
  | some (v, rest) => if skipWs rest = [] then some v else none
  | none => none

/-! ## json.dumps: the JSON writer

Models Python `json.dumps` with its default separators. -/

/-- Escape one character for a JSON string literal. -/
def escapeChar (c : Char) : String :=
  if c = '"' then "\\\""
  else if c = '\\' then "\\\\"
  else if c = '\n' then "\\n"
  else if c = '\t' then "\\t"
  else if c = '\r' then "\\r"
  else String.singleton c

/-- Escape a whole string for a JSON string literal. -/
def escapeString (s : String) : String :=
  String.join (s.data.map escapeChar)

mutual

/-- Python `json.dumps` with default separators. -/
def jsonDumps : JValue → String
  | .null => "null"
  | .bool b => if b then "true" else "false"
  | .num n => toString n
  | .str s => "\"" ++ escapeString s ++ "\""
  | .arr xs => "[" ++ dumpsElems xs ++ "]"
  | .obj ms => "\x7b" ++ dumpsMembers ms ++ "\x7d"

/-- Serialize array elements joined by Python's default item separator. -/
def dumpsElems : List JValue → String
  | [] => ""
  | [x] => jsonDumps x
  | x :: y :: xs => jsonDumps x ++ ", " ++ dumpsElems (y :: xs)

/-- Serialize object members joined by Python's default separators. -/
def dumpsMembers : List (String × JValue) → String
  | [] => ""
  | [(k, v)] => "\"" ++ escapeString k ++ "\": " ++ jsonDumps v
  | (k, v) :: m :: ms =>
    "\"" ++ escapeString k ++ "\": " ++ jsonDumps v ++ ", " ++ dumpsMembers (m :: ms)

end

/-! ## Python dictionaries

`Script.structuredOut` is a Python `dict`: insertion-ordered unique keys,
`update` merges another mapping with last-write-wins per key. -/

/-- The contents of a Python `dict` with string keys and JSON values. -/
abbrev PyDict := List (String × JValue)

/-- First-occurrence key lookup (Python `d[k]`, as a total function). -/
def lookupVal : PyDict → String → Option JValue
  | [], _ => none
  | (k1, v) :: rest, k => if k1 = k then some v else lookupVal rest k

/-- Python `d[k] = v`: replace the value at an existing key in place, or
append a new binding at the end. -/
def dictSet : PyDict → String → JValue → PyDict
  | [], k, v => [(k, v)]
  | (k1, v1) :: rest, k, v =>
    if k1 = k then (k1, v) :: rest else (k1, v1) :: dictSet rest k v

/-- Python `d.update(s)`: set each binding of `s` in order into `d`. -/
def dictUpdate (d : PyDict) (s : PyDict) : PyDict :=
  s.foldl (fun acc kv => dictSet acc kv.1 kv.2) d

/-! ## Script.put_structured_out -/

/-- The state touched by `Script.put_structured_out`: the class-level
accumulated mapping `Script.structuredOut` and the bytes last written to the
structured-output file (`none` when never successfully written). -/
structure OutState where
  structuredOut : PyDict
  fileContent : Option String

/-- `Script.put_structured_out(sout)`:
```
Script.structuredOut.update(sout)
try:
  structuredOut = json.dumps(Script.structuredOut)
  with open(self.stroutfile, 'w') as fp:
    json.dump(structuredOut, fp)
except IOError:
  Script.structuredOut.update({"errMsg" : "Unable to write to " + self.stroutfile})
```
`writeOk` is whether opening/writing the file raises `IOError`. On success,
the file is truncated and rewritten with `json.dump` of the *string*
`json.dumps(Script.structuredOut)` — the serialization is written JSON-string
encoded (double-encoded). On `IOError` the function records `errMsg` into the
in-memory mapping instead; it never raises to the caller (hence the total
return type). -/
def put_structured_out (stroutfile : String) (writeOk : Bool) (sout : PyDict)
    (st : OutState) : OutState :=
  let merged := dictUpdate st.structuredOut sout
  if writeOk then
    { structuredOut := merged,
      fileContent := some (jsonDumps (.str (jsonDumps (.obj merged)))) }
  else
    { structuredOut :=
        dictUpdate merged [("errMsg", .str ("Unable to write to " ++ stroutfile))],
      fileContent := st.fileContent }

/-- The value the last occurrence of `k` in `d` would leave in a dict built
by setting `d`'s bindings in order. -/
def lookupLast (d : PyDict) (k : String) : Option JValue :=
  lookupVal d.reverse k

/-- Left-biased choice of optional values. -/
def firstSome : Option JValue → Option JValue → Option JValue
  | some v, _ => some v
  | none, o => o

/-- Decode the persisted structured-output file: read the JSON document in
the file (a string literal, since the write is double-encoded), then read
the mapping serialized inside that string. -/
def decodeStructuredFile (st : OutState) : Option JValue :=
  match st.fileContent with
  | none => none
  | some bytes =>
    match jsonLoads bytes with
    | some (.str inner) => jsonLoads inner
    | _ => none

/-! ## Script.install_packages -/

/-- An observable call made by `install_packages` to an external
collaborator: `RepoInstaller.install_repos`, `Package(name)`, or
`RepoInstaller.remove_repos`. -/
inductive PkgEvent where
  | installRepos
  | packageInstall (name : JValue)
  | removeRepos

/-- Python dict-style subscripting `v[k]` with a string key. On a JSON
object, a present key yields its value and a missing key raises `KeyError`;
subscripting a non-object with a string raises `TypeError`.

Modelled from the spec for the configuration lookup: `ConfigDictionary`
(`resource_management.libraries.script.config_dictionary`, not under `src/`)
wraps JSON objects with dict-style access, and spec §4.1 requires a
distinguishable missing-key condition, which `install_packages` catches as
`KeyError`. For plain dicts produced by `json.loads` this is ordinary Python
`dict.__getitem__` semantics. -/
def getItem (v : JValue) (k : String) : Except PyErr JValue :=
  match v with
  | .obj ms =>
    match lookupVal ms k with
    | some x => .ok x
    | none => .error .keyError
  | _ => .error .typeError

/-- Python `for x in v` iterability: a list yields its elements, a dict its
keys, a string its characters; other values raise `TypeError`. -/
def pyIter : JValue → Except PyErr (List JValue)
  | .arr xs => .ok xs
  | .obj ms => .ok (ms.map (fun kv => .str kv.1))
  | .str s => .ok (s.data.map (fun c => .str (String.singleton c)))
  | _ => .error .typeError

/-- The loop body of `install_packages`:
```
for package in package_list:
  name = package['name']
  Package(name)
```
Returns the `Package` invocations made and the first exception raised (which
aborts the rest of the loop), if any. -/
def packagesLoop : List JValue → List PkgEvent × Option PyErr
  | [] => ([], none)
  | p :: rest =>
    match getItem p "name" with
    | .error e => ([], some e)
    | .ok name =>
      let (evts, err) := packagesLoop rest
      (PkgEvent.packageInstall name :: evts, err)

/-- The `try:` block body of `install_packages`:
```
package_list_str = config['hostLevelParams']['package_list']
if isinstance(package_list_str,basestring) and len(package_list_str) > 0:
  package_list = json.loads(package_list_str)
  for package in package_list:
    name = package['name']
    Package(name)
```
Returns the `Package` invocations made and the exception raised inside the
block, if any. -/
def tryInstallBody (config : JValue) : List PkgEvent × Option PyErr :=
  match (getItem config "hostLevelParams").bind (fun h => getItem h "package_list") with
  | .error e => ([], some e)
  | .ok pls =>
    match pls with
    | .str s =>
      if s.length > 0 then
        match jsonLoads s with
        | none => ([], some .valueError)
        | some parsed =>
          match pyIter parsed with
          | .error e => ([], some e)
          | .ok items => packagesLoop items
      else ([], none)
    | _ => ([], none)

/-- `Script.install_packages(env)`:
```
config = self.get_config()
RepoInstaller.install_repos(config)
try:
  ... (tryInstallBody) ...
except KeyError:
  pass # No reason to worry
RepoInstaller.remove_repos(config)
```
`installReposOk` / `removeReposOk` say whether the two `RepoInstaller` calls
succeed. Modelled from the spec for `RepoInstaller` (not under `src/`):
spec §6 — both calls may fail and failures propagate as fatal domain
failures, i.e. `Fail` exceptions. Returns the trace of external calls made,
in order, and the exception propagating out of the method, if any. Only
`KeyError` from the `try:` block is swallowed; any other exception skips
`remove_repos` and propagates. -/
def install_packages (config : JValue) (installReposOk removeReposOk : Bool) :
    List PkgEvent × Option PyErr :=
  if installReposOk then
    let (evts, err) := tryInstallBody config
    match err with
    | none =>
      (PkgEvent.installRepos :: evts ++ [PkgEvent.removeRepos],
       if removeReposOk then none else some (.fail "remove_repos failed"))
    | some PyErr.keyError =>
      (PkgEvent.installRepos :: evts ++ [PkgEvent.removeRepos],
       if removeReposOk then none else some (.fail "remove_repos failed"))
    | some e => (PkgEvent.installRepos :: evts, some e)
  else ([], some (.fail "install_repos failed"))

/-! ## Script.execute -/

/-- Lowercase one ASCII character (Python 2 `str.lower` acts bytewise on
ASCII letters). -/
def charLower (c : Char) : Char :=
  if 'A' ≤ c ∧ c ≤ 'Z' then Char.ofNat (c.toNat + 32) else c

/-- Python 2 `str.lower(...)` on a byte string: ASCII lowercasing. -/
def strLower (s : String) : String := String.mk (s.data.map charLower)

/-- An observable step taken by `Script.execute`: an error-channel log
message, the successful creation of `Script.config`, entering/leaving the
`with Environment(basedir)` scope, dispatching the resolved method, or an
external call made by a handler. -/
inductive Event where
  | logError (msg : String)
  | loadConfig
  | acquireEnv (basedir : String)
  | invokeHandler (name : String)
  | releaseEnv
  | pkg (e : PkgEvent)

/-- How `Script.execute` terminates: an explicit `sys.exit(code)`, an
exception it does not catch, or a normal return. -/
inductive ExecOutcome where
  | exited (code : Nat)
  | uncaught (e : PyErr)
  | finished

/-- The process exit status produced by each outcome: `sys.exit(code)` exits
with `code`, CPython terminates with status 1 on an uncaught exception, and
a normal return of the script ends the process with status 0. -/
def pyExitStatus : ExecOutcome → Nat
  | .exited code => code
  | .uncaught _ => 1
  | .finished => 0

/-- The result of one `Script.execute` invocation: the ordered trace of
observable steps and the way the process ends. -/
structure ExecResult where
  events : List Event
  outcome : ExecOutcome

/-- `Script.execute()`, shallowly embedded.

* `methods` is `dir(self)` — the attribute names of the concrete `Script`
  instance;
* `handlers cmd cfg` is the behavior of `getattr(self, cmd)` applied to the
  environment: the trace of the method body and the exception it raises, if
  any;
* `argv` is `sys.argv` (element 0 is the program name);
* `readConfigFile` is the content of the file at `sys.argv[2]`, or `none`
  when opening/reading it raises `IOError`.

Mirrors the source: `sys.exit(1)` when `len(sys.argv) < 5`; lowercase the
command name; load the config, where only `IOError` is caught (invalid JSON
raises `ValueError` out of the `try`, uncaught); `sys.exit(1)` with a logged
message when the command is not in `dir(self)`; otherwise run the method
inside `with Environment(basedir)` (released on every path), catching only
`Fail` (logged, `sys.exit(1)`); other handler exceptions propagate uncaught
after the environment is released. -/
def execute (methods : List String)
    (handlers : String → JValue → List Event × Option PyErr)
    (argv : List String) (readConfigFile : Option String) : ExecResult :=
  if argv.length < 5 then
    { events := [.logError "Script expects at least 4 arguments"],
      outcome := .exited 1 }
  else
    let command_name := strLower (argv.getD 1 "")
    let basedir := argv.getD 3 ""
    match readConfigFile with
    | none =>
      { events := [.logError "Can not read json file with command parameters: "],
        outcome := .exited 1 }
    | some content =>
      match jsonLoads content with
      | none => { events := [], outcome := .uncaught .valueError }
      | some cfg =>
        if command_name ∈ methods then
          let (hEvents, hErr) := handlers command_name cfg
          let evts := Event.loadConfig :: Event.acquireEnv basedir ::
            Event.invokeHandler command_name :: hEvents ++ [Event.releaseEnv]
          match hErr with
          | none => { events := evts, outcome := .finished }
          | some (.fail _) =>
            { events := evts ++
                [.logError ("Got exception while executing method \x27" ++
                  command_name ++ "\x27:")],
              outcome := .exited 1 }
          | some e => { events := evts, outcome := .uncaught e }
        else
          { events := [Event.loadConfig,
              .logError ("Script " ++ argv.getD 0 "" ++ " has not method \x27" ++
                command_name ++ "\x27")],
            outcome := .exited 1 }

/-- The attribute names of a plain `Script` instance at the dispatch point
(`dir(self)`), eliding the `__...__` double-underscore members, which no
claim's command name matches. -/
def scriptMethods : List String :=
  ["config", "execute", "fail_with_error", "get_config", "install",
   "install_packages", "put_structured_out", "stroutfile", "structuredOut"]

/-- `Script.install` as a handler: its default implementation calls
`self.install_packages(env)`; its trace and exception are those of
`install_packages`. -/
def installHandler (installReposOk removeReposOk : Bool) (cfg : JValue) :
    List Event × Option PyErr :=
  let (evts, err) := install_packages cfg installReposOk removeReposOk
  (evts.map Event.pkg, err)

/-! ## Sample configurations (used to instantiate the theorems) -/

/-- A configuration whose `hostLevelParams.package_list` is the JSON-encoded
two-package list of the spec's example. -/
def cfgFooBar : JValue :=
  .obj [("hostLevelParams", .obj [("package_list",
    .str "[\x7b\"name\":\"foo\"\x7d,\x7b\"name\":\"bar\"\x7d]")])]

/-- A configuration with `hostLevelParams` present but no `package_list`. -/
def cfgNoPackageList : JValue :=
  .obj [("hostLevelParams", .obj [("clusterName", .str "c1")])]

/-- A configuration whose `hostLevelParams.package_list` is the empty
string. -/
def cfgEmptyPackageList : JValue :=
  .obj [("hostLevelParams", .obj [("package_list", .str "")])]

/-- A configuration whose `hostLevelParams.package_list` is present,
non-empty, and not valid JSON. -/
def cfgMalformedPackageList : JValue :=
  .obj [("hostLevelParams", .obj [("package_list", .str "[\x7bmalformed")])]

/-- A configuration whose package list has a well-formed first descriptor,
a second descriptor lacking the `name` key, and a third descriptor. -/
def cfgMissingName : JValue :=
  .obj [("hostLevelParams", .obj [("package_list",
    .str "[\x7b\"name\":\"a\"\x7d,\x7b\"os\":\"any\"\x7d,\x7b\"name\":\"c\"\x7d]")])]

/-! ## Lemmas about Python dict update -/

theorem lookupVal_append (d1 d2 : PyDict) (k : String) :
    lookupVal (d1 ++ d2) k = firstSome (lookupVal d1 k) (lookupVal d2 k) := by
  induction d1 with
  | nil => simp [lookupVal, firstSome]
  | cons kv rest ih =>
    obtain ⟨ka, va⟩ := kv
    by_cases h : ka = k
    · simp [lookupVal, h, firstSome]
    · simp [lookupVal, h, ih]

theorem lookupVal_dictSet (d : PyDict) (k1 k : String) (v : JValue) :
    lookupVal (dictSet d k1 v) k = if k1 = k then some v else lookupVal d k := by
  induction d with
  | nil =>
    by_cases h : k1 = k
    · simp [dictSet, lookupVal, h]
    · simp [dictSet, lookupVal, h]
  | cons kv rest ih =>
    obtain ⟨ka, va⟩ := kv
    by_cases h : ka = k1
    · subst h
      by_cases h2 : ka = k
      · simp [dictSet, lookupVal, h2]
      · simp [dictSet, lookupVal, h2]
    · by_cases h2 : ka = k
      · subst h2
        have h3 : k1 ≠ ka := fun hk => h hk.symm
        simp [dictSet, h, lookupVal, h3]
      · simp [dictSet, h, lookupVal, h2, ih]

theorem firstSome_assoc (a b c : Option JValue) :
    firstSome (firstSome a b) c = firstSome a (firstSome b c) := by
  cases a <;> simp [firstSome]

theorem lookupLast_cons (k1 : String) (v1 : JValue) (s : PyDict) (k : String) :
    lookupLast ((k1, v1) :: s) k
      = firstSome (lookupLast s k) (if k1 = k then some v1 else none) := by
  unfold lookupLast
  rw [List.reverse_cons, lookupVal_append]
  by_cases h : k1 = k
  · simp [lookupVal, h]
  · simp [lookupVal, h]

/-- Merging `s` into `d` with Python `dict.update` is last-write-wins per
key: a key set by `s` ends at the value of its last occurrence in `s`, and a
key not set by `s` keeps its value from `d`. -/
theorem lookupVal_dictUpdate (s d : PyDict) (k : String) :
    lookupVal (dictUpdate d s) k = firstSome (lookupLast s k) (lookupVal d k) := by
  induction s generalizing d with
  | nil => simp [dictUpdate, lookupLast, lookupVal, firstSome]
  | cons kv s ih =>
    obtain ⟨k1, v1⟩ := kv
    have h1 : dictUpdate d ((k1, v1) :: s) = dictUpdate (dictSet d k1 v1) s := rfl
    rw [h1, ih, lookupLast_cons, firstSome_assoc, lookupVal_dictSet]
    by_cases h : k1 = k
    · simp [h, firstSome]
    · simp [h, firstSome]

/-! ## Claim theorems -/

/-- C2: if `hostLevelParams.package_list` is the string
`[{"name":"foo"},{"name":"bar"}]`, `install_packages` invokes the
package-installation primitive exactly twice, with `"foo"` then `"bar"`, in
that order, after the repository-registration call and before the
repository-cleanup call. -/
theorem install_packages_foo_bar_order (cfg : JValue)
    (h : (getItem cfg "hostLevelParams").bind (fun x => getItem x "package_list")
          = .ok (.str "[\x7b\"name\":\"foo\"\x7d,\x7b\"name\":\"bar\"\x7d]")) :
    install_packages cfg true true
      = ([PkgEvent.installRepos, PkgEvent.packageInstall (.str "foo"),
          PkgEvent.packageInstall (.str "bar"), PkgEvent.removeRepos], none) := by
  have hb : tryInstallBody cfg
      = ([PkgEvent.packageInstall (.str "foo"), PkgEvent.packageInstall (.str "bar")],
         none) := by
    unfold tryInstallBody
    rw [h]
    rfl
  unfold install_packages
  rw [hb]
  rfl

/-- Witness for C2 at a concrete configuration. -/
theorem install_packages_foo_bar_order_witness :
    (getItem cfgFooBar "hostLevelParams").bind (fun x => getItem x "package_list")
      = .ok (.str "[\x7b\"name\":\"foo\"\x7d,\x7b\"name\":\"bar\"\x7d]")
    ∧ install_packages cfgFooBar true true
      = ([PkgEvent.installRepos, PkgEvent.packageInstall (.str "foo"),
          PkgEvent.packageInstall (.str "bar"), PkgEvent.removeRepos], none) :=
  ⟨rfl, install_packages_foo_bar_order cfgFooBar rfl⟩

/-- C4: when `hostLevelParams.package_list` is absent (a missing key at
either point of the lookup chain) or the empty string, `install_packages`
makes no package-installation call, raises nothing, and still calls both
`install_repos` and `remove_repos`. -/
theorem absent_or_empty_package_list_installs_nothing (cfg : JValue)
    (h : (getItem cfg "hostLevelParams").bind (fun x => getItem x "package_list")
           = .error .keyError
         ∨ (getItem cfg "hostLevelParams").bind (fun x => getItem x "package_list")
           = .ok (.str "")) :
    install_packages cfg true true
      = ([PkgEvent.installRepos, PkgEvent.removeRepos], none) := by
  rcases h with h | h
  · have hb : tryInstallBody cfg = ([], some .keyError) := by
      unfold tryInstallBody
      rw [h]
    unfold install_packages
    rw [hb]
    rfl
  · have hb : tryInstallBody cfg = ([], none) := by
      unfold tryInstallBody
      rw [h]
      rfl
    unfold install_packages
    rw [hb]
    rfl

/-- Witness for C4 at concrete configurations: one missing the key, one with
the empty string. -/
theorem absent_or_empty_package_list_installs_nothing_witness :
    ((getItem cfgNoPackageList "hostLevelParams").bind
        (fun x => getItem x "package_list") = .error .keyError
      ∧ install_packages cfgNoPackageList true true
        = ([PkgEvent.installRepos, PkgEvent.removeRepos], none))
    ∧ ((getItem cfgEmptyPackageList "hostLevelParams").bind
        (fun x => getItem x "package_list") = .ok (.str "")
      ∧ install_packages cfgEmptyPackageList true true
        = ([PkgEvent.installRepos, PkgEvent.removeRepos], none)) :=
  ⟨⟨rfl, absent_or_empty_package_list_installs_nothing cfgNoPackageList (Or.inl rfl)⟩,
   ⟨rfl, absent_or_empty_package_list_installs_nothing cfgEmptyPackageList (Or.inr rfl)⟩⟩

/-- C9 counterexample: with `hostLevelParams.package_list` present,
non-empty, and not valid JSON, `install_packages` does NOT complete without
error: `json.loads` raises `ValueError`, which the `except KeyError` handler
does not catch, so the error propagates and `remove_repos` is never
reached. -/
theorem malformed_package_list_not_absorbed_cex :
    install_packages cfgMalformedPackageList true true
      = ([PkgEvent.installRepos], some PyErr.valueError)
    ∧ (install_packages cfgMalformedPackageList true true).2 ≠ none := by
  have h2 : (install_packages cfgMalformedPackageList true true).2
      = some PyErr.valueError := rfl
  refine ⟨rfl, ?_⟩
  rw [h2]
  simp

/-- C9 amended: if `hostLevelParams.package_list` is present, non-empty, and
not valid JSON, the `ValueError` raised by `json.loads` is not absorbed by
the `except KeyError` catch; `install_packages` propagates it after the
repository-registration call and before the repository-cleanup call, which
never runs. -/
theorem malformed_package_list_propagates_valueError (cfg : JValue) (s : String)
    (hchain : (getItem cfg "hostLevelParams").bind (fun x => getItem x "package_list")
                = .ok (.str s))
    (hlen : 0 < s.length)
    (hbad : jsonLoads s = none) :
    install_packages cfg true true = ([PkgEvent.installRepos], some PyErr.valueError) := by
  have hb : tryInstallBody cfg = ([], some .valueError) := by
    unfold tryInstallBody
    rw [hchain]
    show (if s.length > 0 then
            match jsonLoads s with
            | none => (([] : List PkgEvent), some PyErr.valueError)
            | some parsed =>
              match pyIter parsed with
              | .error e => ([], some e)
              | .ok items => packagesLoop items
          else ([], none)) = ([], some PyErr.valueError)
    rw [if_pos hlen, hbad]
  unfold install_packages
  rw [hb]
  rfl

/-- Witness for the amended C9 at a concrete configuration. -/
theorem malformed_package_list_propagates_valueError_witness :
    (getItem cfgMalformedPackageList "hostLevelParams").bind
        (fun x => getItem x "package_list") = .ok (.str "[\x7bmalformed")
    ∧ 0 < ("[\x7bmalformed" : String).length
    ∧ jsonLoads "[\x7bmalformed" = none
    ∧ install_packages cfgMalformedPackageList true true
      = ([PkgEvent.installRepos], some PyErr.valueError) :=
  ⟨rfl, by decide,  rfl,
   malformed_package_list_propagates_valueError cfgMalformedPackageList
     "[\x7bmalformed" rfl (by decide) rfl⟩

/-- The loop of `install_packages` on a list whose first descriptor without a
`name` key is `bad`: the descriptors before `bad` are installed in order,
then the `KeyError` from `bad['name']` aborts the loop. -/
theorem packagesLoop_stops_at_missing_name
    (pre : List (JValue × JValue)) (bad : JValue) (rest : List JValue)
    (hpre : ∀ q ∈ pre, getItem q.1 "name" = .ok q.2)
    (hbad : getItem bad "name" = .error .keyError) :
    packagesLoop (pre.map Prod.fst ++ bad :: rest)
      = (pre.map (fun q => PkgEvent.packageInstall q.2), some .keyError) := by
  induction pre with
  | nil =>
    simp only [List.map_nil, List.nil_append]
    unfold packagesLoop
    rw [hbad]
  | cons q pre ih =>
    have hq := hpre q (by simp)
    have ih2 := ih (fun p hp => hpre p (by simp [hp]))
    simp only [List.map_cons, List.cons_append]
    unfold packagesLoop
    rw [hq, ih2]

/-- C10: if the parsed package list has a descriptor lacking a `name` key,
`install_packages` raises no error: descriptors before it are installed in
order, descriptors at and after it are silently not installed, and
`remove_repos` still runs (the `KeyError` from `package['name']` is caught
by the same `except KeyError`). -/
theorem missing_name_descriptor_skips_rest_cleanup_runs
    (cfg : JValue) (s : String)
    (pre : List (JValue × JValue)) (bad : JValue) (rest : List JValue)
    (hchain : (getItem cfg "hostLevelParams").bind (fun x => getItem x "package_list")
                = .ok (.str s))
    (hlen : 0 < s.length)
    (hparse : jsonLoads s = some (.arr (pre.map Prod.fst ++ bad :: rest)))
    (hpre : ∀ q ∈ pre, getItem q.1 "name" = .ok q.2)
    (hbad : getItem bad "name" = .error .keyError) :
    install_packages cfg true true
      = (PkgEvent.installRepos ::
          pre.map (fun q => PkgEvent.packageInstall q.2) ++ [PkgEvent.removeRepos],
         none) := by
  have hb : tryInstallBody cfg
      = (pre.map (fun q => PkgEvent.packageInstall q.2), some .keyError) := by
    unfold tryInstallBody
    rw [hchain]
    show (if s.length > 0 then
            match jsonLoads s with
            | none => (([] : List PkgEvent), some PyErr.valueError)
            | some parsed =>
              match pyIter parsed with
              | .error e => ([], some e)
              | .ok items => packagesLoop items
          else ([], none))
        = (pre.map (fun q => PkgEvent.packageInstall q.2), some .keyError)
    rw [if_pos hlen, hparse]
    show packagesLoop (pre.map Prod.fst ++ bad :: rest)
        = (pre.map (fun q => PkgEvent.packageInstall q.2), some .keyError)
    exact packagesLoop_stops_at_missing_name pre bad rest hpre hbad
  unfold install_packages
  rw [hb]
  rfl

/-- Witness for C10 at a concrete configuration: packages `a`, a descriptor
without `name`, then `c`; only `a` is installed and cleanup runs. -/
theorem missing_name_descriptor_skips_rest_cleanup_runs_witness :
    (getItem cfgMissingName "hostLevelParams").bind
        (fun x => getItem x "package_list")
      = .ok (.str "[\x7b\"name\":\"a\"\x7d,\x7b\"os\":\"any\"\x7d,\x7b\"name\":\"c\"\x7d]")
    ∧ jsonLoads "[\x7b\"name\":\"a\"\x7d,\x7b\"os\":\"any\"\x7d,\x7b\"name\":\"c\"\x7d]"
      = some (.arr ([(JValue.obj [("name", JValue.str "a")], JValue.str "a")].map Prod.fst
          ++ JValue.obj [("os", JValue.str "any")] :: [JValue.obj [("name", JValue.str "c")]]))
    ∧ install_packages cfgMissingName true true
      = (PkgEvent.installRepos ::
          [(JValue.obj [("name", JValue.str "a")], JValue.str "a")].map
            (fun q => PkgEvent.packageInstall q.2) ++ [PkgEvent.removeRepos],
         none) := by
  refine ⟨rfl, rfl, ?_⟩
  exact missing_name_descriptor_skips_rest_cleanup_runs cfgMissingName
    "[\x7b\"name\":\"a\"\x7d,\x7b\"os\":\"any\"\x7d,\x7b\"name\":\"c\"\x7d]"
    [(JValue.obj [("name", JValue.str "a")], JValue.str "a")]
    (JValue.obj [("os", JValue.str "any")])
    [JValue.obj [("name", JValue.str "c")]]
    rfl (by decide) rfl
    (by intro q hq; simp at hq; rw [hq]; rfl)
    rfl

/-- C7: with fewer than four positional arguments after the program name
(`len(sys.argv) < 5`), `execute` logs an error and exits with status 1, and
no configuration is loaded. -/
theorem too_few_args_exits_1_no_config (methods : List String)
    (handlers : String → JValue → List Event × Option PyErr)
    (argv : List String) (file : Option String)
    (h : argv.length < 5) :
    execute methods handlers argv file
      = { events := [Event.logError "Script expects at least 4 arguments"],
          outcome := .exited 1 }
    ∧ Event.loadConfig ∉ (execute methods handlers argv file).events
    ∧ pyExitStatus (execute methods handlers argv file).outcome = 1 := by
  have he : execute methods handlers argv file
      = { events := [Event.logError "Script expects at least 4 arguments"],
          outcome := .exited 1 } := by
    unfold execute
    rw [if_pos h]
  refine ⟨he, ?_, ?_⟩
  · rw [he]
    simp
  · rw [he]
    rfl

/-- Witness for C7 with a three-argument invocation. -/
theorem too_few_args_exits_1_no_config_witness :
    (["script", "install", "conf.json"] : List String).length < 5
    ∧ execute scriptMethods (fun _ _ => ([], none)) ["script", "install", "conf.json"] none
      = { events := [Event.logError "Script expects at least 4 arguments"],
          outcome := .exited 1 }
    ∧ Event.loadConfig
        ∉ (execute scriptMethods (fun _ _ => ([], none))
            ["script", "install", "conf.json"] none).events
    ∧ pyExitStatus (execute scriptMethods (fun _ _ => ([], none))
        ["script", "install", "conf.json"] none).outcome = 1 :=
  ⟨by decide,
   too_few_args_exits_1_no_config scriptMethods (fun _ _ => ([], none))
     ["script", "install", "conf.json"] none (by decide)⟩

/-- C5: if the configuration file is unreadable (`IOError`, caught and
turned into `sys.exit(1)`) or not valid JSON (`ValueError`, uncaught — the
`except IOError` does not match it — terminating the interpreter with
status 1), the invocation ends with process status 1 before any handler is
dispatched and before any execution environment is acquired: every event in
the trace is at most a logged error message. -/
theorem config_load_failure_exits_before_dispatch (methods : List String)
    (handlers : String → JValue → List Event × Option PyErr)
    (argv : List String) (file : Option String)
    (h5 : 5 ≤ argv.length)
    (hbad : file = none ∨ ∃ content, file = some content ∧ jsonLoads content = none) :
    pyExitStatus (execute methods handlers argv file).outcome = 1
    ∧ ∀ e ∈ (execute methods handlers argv file).events, ∃ m, e = Event.logError m := by
  have hlt : ¬ argv.length < 5 := by omega
  rcases hbad with hnone | ⟨content, hsome, hparse⟩
  · subst hnone
    have he : execute methods handlers argv none
        = { events := [Event.logError "Can not read json file with command parameters: "],
            outcome := .exited 1 } := by
      unfold execute
      rw [if_neg hlt]
    rw [he]
    exact ⟨rfl, by intro e he2; simp at he2; exact ⟨_, he2⟩⟩
  · subst hsome
    have he : execute methods handlers argv (some content)
        = { events := [], outcome := .uncaught .valueError } := by
      simp only [execute, if_neg hlt, hparse]
    rw [he]
    exact ⟨rfl, by intro e he2; simp at he2⟩

/-- Witness for C5: an invocation whose configuration file content is not
valid JSON ends with process status 1. -/
theorem config_load_failure_exits_before_dispatch_witness :
    5 ≤ (["script", "install", "conf.json", "/base", "/out"] : List String).length
    ∧ (some "not json" = (none : Option String)
       ∨ ∃ content, some "not json" = some content ∧ jsonLoads content = none)
    ∧ pyExitStatus (execute scriptMethods (fun _ _ => ([], none))
        ["script", "install", "conf.json", "/base", "/out"]
        (some "not json")).outcome = 1 :=
  ⟨by decide, Or.inr ⟨"not json", rfl, rfl⟩,
   (config_load_failure_exits_before_dispatch scriptMethods (fun _ _ => ([], none))
     ["script", "install", "conf.json", "/base", "/out"] (some "not json")
     (by decide) (Or.inr ⟨"not json", rfl, rfl⟩)).1⟩

/-- C6: when the lowercased command name does not match an attribute of the
`Script` instance (`dir(self)`), `execute` logs an error naming the program
(`sys.argv[0]`) and the requested command, exits with status 1, and never
invokes any handler: the trace holds only the configuration load and that
log message. -/
theorem unknown_command_exits_1_no_handler (methods : List String)
    (handlers : String → JValue → List Event × Option PyErr)
    (argv : List String) (content : String) (cfg : JValue)
    (h5 : 5 ≤ argv.length)
    (hparse : jsonLoads content = some cfg)
    (hcmd : strLower (argv.getD 1 "") ∉ methods) :
    execute methods handlers argv (some content)
      = { events := [Event.loadConfig,
            Event.logError ("Script " ++ argv.getD 0 "" ++ " has not method \x27"
              ++ strLower (argv.getD 1 "") ++ "\x27")],
          outcome := .exited 1 }
    ∧ pyExitStatus (execute methods handlers argv (some content)).outcome = 1 := by
  have hlt : ¬ argv.length < 5 := by omega
  have he : execute methods handlers argv (some content)
      = { events := [Event.loadConfig,
            Event.logError ("Script " ++ argv.getD 0 "" ++ " has not method \x27"
              ++ strLower (argv.getD 1 "") ++ "\x27")],
          outcome := .exited 1 } := by
    simp only [execute, if_neg hlt, hparse, if_neg hcmd]
  exact ⟨he, by rw [he]; rfl⟩

/-- Witness for C6: the command `frobnicate` matches no attribute of the
`Script` instance. -/
theorem unknown_command_exits_1_no_handler_witness :
    jsonLoads "\x7b\x7d" = some (.obj [])
    ∧ strLower "frobnicate" ∉ scriptMethods
    ∧ execute scriptMethods (fun _ _ => ([], none))
        ["script", "frobnicate", "conf.json", "/base", "/out"] (some "\x7b\x7d")
      = { events := [Event.loadConfig,
            Event.logError "Script script has not method \x27frobnicate\x27"],
          outcome := .exited 1 } := by
  refine ⟨rfl, by decide, ?_⟩
  exact (unknown_command_exits_1_no_handler scriptMethods (fun _ _ => ([], none))
    ["script", "frobnicate", "conf.json", "/base", "/out"] "\x7b\x7d" (.obj [])
    (by decide) rfl (by decide)).1

/-- C3: if `RepoInstaller.install_repos` fails (a fatal `Fail`, per the
spec's collaborator contract), `remove_repos` is never invoked — the method
raises before reaching it — and the dispatched invocation is caught by
`except Fail` in `execute`, which exits the process with status 1. -/
theorem install_repos_failure_skips_remove_and_exits_1
    (cfg : JValue) (removeReposOk : Bool)
    (cfgStr argv0 cfgPath basedir outPath : String)
    (hparse : jsonLoads cfgStr = some cfg) :
    install_packages cfg false removeReposOk
      = ([], some (PyErr.fail "install_repos failed"))
    ∧ execute scriptMethods (fun _ c => installHandler false removeReposOk c)
        [argv0, "install", cfgPath, basedir, outPath] (some cfgStr)
      = { events := [Event.loadConfig, Event.acquireEnv basedir,
            Event.invokeHandler "install", Event.releaseEnv,
            Event.logError "Got exception while executing method \x27install\x27:"],
          outcome := .exited 1 }
    ∧ pyExitStatus (execute scriptMethods (fun _ c => installHandler false removeReposOk c)
        [argv0, "install", cfgPath, basedir, outPath] (some cfgStr)).outcome = 1 := by
  have hlt : ¬ ([argv0, "install", cfgPath, basedir, outPath] : List String).length < 5 := by
    simp
  have he : execute scriptMethods (fun _ c => installHandler false removeReposOk c)
      [argv0, "install", cfgPath, basedir, outPath] (some cfgStr)
      = { events := [Event.loadConfig, Event.acquireEnv basedir,
            Event.invokeHandler "install", Event.releaseEnv,
            Event.logError "Got exception while executing method \x27install\x27:"],
          outcome := .exited 1 } := by
    simp only [execute, if_neg hlt, hparse]
    rfl
  exact ⟨rfl, he, by rw [he]; rfl⟩

/-- Witness for C3 at a concrete configuration. -/
theorem install_repos_failure_skips_remove_and_exits_1_witness :
    jsonLoads "\x7b\x7d" = some (.obj [])
    ∧ install_packages (.obj []) false true
      = ([], some (PyErr.fail "install_repos failed"))
    ∧ execute scriptMethods (fun _ c => installHandler false true c)
        ["script", "install", "conf.json", "/base", "/out"] (some "\x7b\x7d")
      = { events := [Event.loadConfig, Event.acquireEnv "/base",
            Event.invokeHandler "install", Event.releaseEnv,
            Event.logError "Got exception while executing method \x27install\x27:"],
          outcome := .exited 1 } := by
  refine ⟨rfl, ?_, ?_⟩
  · exact (install_repos_failure_skips_remove_and_exits_1 (.obj []) true
      "\x7b\x7d" "script" "conf.json" "/base" "/out" rfl).1
  · exact (install_repos_failure_skips_remove_and_exits_1 (.obj []) true
      "\x7b\x7d" "script" "conf.json" "/base" "/out" rfl).2.1

/-- C1 counterexample: after `report({"a":1})` from an empty accumulated
mapping with a successful write, the persisted bytes are NOT the JSON
serialization of the accumulated mapping (`{"a": 1}`), but that
serialization encoded once more as a JSON string literal (`"{\"a\": 1}"`),
because the source runs `json.dump(json.dumps(Script.structuredOut), fp)`;
the persisted document parses to a JSON string, not to an object. -/
theorem put_structured_out_writes_string_not_mapping :
    (put_structured_out "/out" true [("a", JValue.num 1)] ⟨[], none⟩).fileContent
      = some "\"\x7b\\\"a\\\": 1\x7d\""
    ∧ jsonDumps (JValue.obj [("a", JValue.num 1)]) = "\x7b\"a\": 1\x7d"
    ∧ ("\"\x7b\\\"a\\\": 1\x7d\"" : String) ≠ "\x7b\"a\": 1\x7d"
    ∧ jsonLoads "\"\x7b\\\"a\\\": 1\x7d\"" = some (JValue.str "\x7b\"a\": 1\x7d") :=
  ⟨rfl, rfl, by decide, rfl⟩

/-- C1 amended: `put_structured_out` merges the given fields into the
accumulated mapping with last-write-wins per key, and (on a successful
write) fully overwrites the structured-output file with the JSON
string-literal encoding of the accumulated mapping's JSON serialization
(the serialization double-encoded as a JSON string). Decoding the persisted
file recovers the whole accumulated mapping: after `report({"a":1})` then
`report({"b":2})` it holds both `a=1` and `b=2`, and after
`report({"a":1})` then `report({"a":3})` it holds `a=3`. -/
theorem put_structured_out_merge_lww_double_encoded
    (f : String) (st : OutState) (sout : PyDict) (k : String) :
    (put_structured_out f true sout st).structuredOut
      = dictUpdate st.structuredOut sout
    ∧ (put_structured_out f true sout st).fileContent
      = some (jsonDumps (.str (jsonDumps (.obj (dictUpdate st.structuredOut sout)))))
    ∧ lookupVal (put_structured_out f true sout st).structuredOut k
      = firstSome (lookupLast sout k) (lookupVal st.structuredOut k)
    ∧ decodeStructuredFile (put_structured_out f true [("b", .num 2)]
        (put_structured_out f true [("a", .num 1)] ⟨[], none⟩))
      = some (.obj [("a", .num 1), ("b", .num 2)])
    ∧ decodeStructuredFile (put_structured_out f true [("a", .num 3)]
        (put_structured_out f true [("a", .num 1)] ⟨[], none⟩))
      = some (.obj [("a", .num 3)]) :=
  ⟨rfl, rfl, lookupVal_dictUpdate sout st.structuredOut k, rfl, rfl⟩

/-- C8: an `IOError` while writing the structured-output file is not raised
to the caller (`put_structured_out` always returns); instead an `errMsg`
field describing the failure is merged into the in-memory accumulated
mapping, and a subsequent successful `report` persists that `errMsg` field
alongside the new data (for any new fields that do not themselves set
`errMsg`). -/
theorem report_io_failure_records_errMsg
    (f : String) (st : OutState) (sout1 sout2 : PyDict) (k : String) (v : JValue)
    (hErr : lookupLast sout2 "errMsg" = none)
    (hk : lookupLast sout2 k = some v) :
    lookupVal (put_structured_out f false sout1 st).structuredOut "errMsg"
      = some (.str ("Unable to write to " ++ f))
    ∧ lookupVal (put_structured_out f true sout2
        (put_structured_out f false sout1 st)).structuredOut "errMsg"
      = some (.str ("Unable to write to " ++ f))
    ∧ lookupVal (put_structured_out f true sout2
        (put_structured_out f false sout1 st)).structuredOut k
      = some v
    ∧ (put_structured_out f true sout2 (put_structured_out f false sout1 st)).fileContent
      = some (jsonDumps (.str (jsonDumps (.obj
          (put_structured_out f true sout2
            (put_structured_out f false sout1 st)).structuredOut)))) := by
  have h1 : lookupVal (put_structured_out f false sout1 st).structuredOut "errMsg"
      = some (.str ("Unable to write to " ++ f)) := by
    show lookupVal (dictUpdate (dictUpdate st.structuredOut sout1)
        [("errMsg", .str ("Unable to write to " ++ f))]) "errMsg" = _
    rw [lookupVal_dictUpdate]
    rfl
  have h2 : lookupVal (put_structured_out f true sout2
      (put_structured_out f false sout1 st)).structuredOut "errMsg"
      = some (.str ("Unable to write to " ++ f)) := by
    show lookupVal (dictUpdate
        (put_structured_out f false sout1 st).structuredOut sout2) "errMsg" = _
    rw [lookupVal_dictUpdate, hErr]
    exact h1
  have h3 : lookupVal (put_structured_out f true sout2
      (put_structured_out f false sout1 st)).structuredOut k = some v := by
    show lookupVal (dictUpdate
        (put_structured_out f false sout1 st).structuredOut sout2) k = some v
    rw [lookupVal_dictUpdate, hk]
    rfl
  exact ⟨h1, h2, h3, rfl⟩

/-- Witness for C8: a failed `report({"a":1})` then a successful
`report({"b":2})` from an empty state. -/
theorem report_io_failure_records_errMsg_witness :
    lookupLast [("b", JValue.num 2)] "errMsg" = none
    ∧ lookupLast [("b", JValue.num 2)] "b" = some (JValue.num 2)
    ∧ lookupVal (put_structured_out "/out" false [("a", JValue.num 1)]
        ⟨[], none⟩).structuredOut "errMsg"
      = some (.str "Unable to write to /out")
    ∧ lookupVal (put_structured_out "/out" true [("b", JValue.num 2)]
        (put_structured_out "/out" false [("a", JValue.num 1)]
          ⟨[], none⟩)).structuredOut "errMsg"
      = some (.str "Unable to write to /out")
    ∧ lookupVal (put_structured_out "/out" true [("b", JValue.num 2)]
        (put_structured_out "/out" false [("a", JValue.num 1)]
          ⟨[], none⟩)).structuredOut "b"
      = some (JValue.num 2)
    ∧ decodeStructuredFile (put_structured_out "/out" true [("b", JValue.num 2)]
        (put_structured_out "/out" false [("a", JValue.num 1)] ⟨[], none⟩))
      = some (.obj [("a", JValue.num 1),
          ("errMsg", JValue.str "Unable to write to /out"), ("b", JValue.num 2)]) := by
  have h := report_io_failure_records_errMsg "/out" ⟨[], none⟩
    [("a", JValue.num 1)] [("b", JValue.num 2)] "b" (JValue.num 2) rfl rfl
  exact ⟨rfl, rfl, h.1, h.2.1, h.2.2.1, rfl⟩

end Script2Proof
